import Mathlib

/-!
Verification of the data-normalization layer of `src/app.py` (sort-center data
analysis dashboard).  The three normalizers `build_arrivals_df`,
`build_workers_df` and `build_stations_df` are shallowly embedded: JSON values
become the inductive `JVal`, pandas DataFrames become `DF` (a column list plus
rows of name-tagged cells), pandas missing values (`NaN` from alignment) become
`Cell.nan`, and Python exceptions become `Except.error`.  Numbers are modelled
as exact rationals (the documents carry small integers and decimal literals,
which Python floats represent exactly on every input exercised here).

Modelled fragment: documents are JSON objects without duplicate keys (as
produced by `json.load`); list-valued `from_dict` rows, exponent-form float
literals and non-ISO datetime strings are outside the fragment and mapped to
errors; datetime parsing covers `YYYY-MM-DD` optionally followed by
`THH:MM:SS` or ` HH:MM:SS`, which is order-faithful to `pd.to_datetime` on
such strings.
-/

namespace SortCenter

/-- JSON value tree, as produced by `json.load` in `load_json_file`. -/
inductive JVal where
  | null
  | bool (b : Bool)
  | num (q : ℚ)
  | str (s : String)
  | arr (xs : List JVal)
  | obj (fs : List (String × JVal))

/-- Top-level parsed document: a JSON object, keyed by its top-level names. -/
abbrev RawDoc := List (String × JVal)

/-- One pandas cell: either the aligned missing value (`NaN`), a stored Python
object originating from the JSON tree, or a parsed datetime (with `none`
playing the role of `NaT`). -/
inductive Cell where
  | nan
  | val (v : JVal)
  | dt (t : Option ℤ)

/-- One DataFrame row: cells tagged with their column names, in column order. -/
abbrev Row := List (String × Cell)

/-- A DataFrame: column labels plus rows (the integer index is positional). -/
structure DF where
  cols : List String
  rows : List Row

/-- Cell access by column label; pandas alignment guarantees a hit, the
`Cell.nan` default only covers labels that are not columns of the frame. -/
def cellAt (r : Row) (c : String) : Cell :=
  (List.lookup c r).getD Cell.nan

/-- Python truthiness of a stored cell.  The aligned missing value is a float
`nan`, which is truthy in Python; `None`, empty containers, zero and the empty
string are falsy. -/
def pyTruthy : Cell → Bool
  | Cell.nan => true
  | Cell.val JVal.null => false
  | Cell.val (JVal.bool b) => b
  | Cell.val (JVal.num q) => decide (q ≠ 0)
  | Cell.val (JVal.str s) => !s.isEmpty
  | Cell.val (JVal.arr xs) => !xs.isEmpty
  | Cell.val (JVal.obj fs) => !fs.isEmpty
  | Cell.dt _ => true

/-- pandas `notna`: false exactly on `NaN`, `None` and `NaT`. -/
def notna : Cell → Bool
  | Cell.nan => false
  | Cell.val JVal.null => false
  | Cell.dt none => false
  | _ => true

/-- Fields contributed by one record of a record list, mirroring how
`pd.DataFrame(list_of_records)` and `Series.apply(pd.Series)` shape a row:
a mapping contributes its entries, a sequence contributes positionally
numbered entries, and a scalar lands in the single column `0`. -/
def recFields : JVal → List (String × Cell)
  | JVal.obj fs => fs.map (fun p => (p.1, Cell.val p.2))
  | JVal.arr xs => (List.range xs.length).zip (xs.map Cell.val) |>.map
      (fun p => (toString p.1, p.2))
  | v => [("0", Cell.val v)]

/-- Column names contributed by one record. -/
def recKeys (v : JVal) : List String :=
  (recFields v).map Prod.fst

/-- Order-preserving union of label lists (first appearance wins), as pandas
uses when building a frame from records. -/
def unionAll : List (List String) → List String
  | [] => []
  | l :: ls => l.foldr (fun c acc => if c ∈ acc then acc else c :: acc) (unionAll ls)

/-- Left-biased order-preserving union: keep `l` in order, then append the
members of `acc` that `l` lacks.  Stated via `foldr` above; this lemma gives
the membership characterization used throughout. -/
theorem mem_foldr_union (l acc : List String) (c : String) :
    c ∈ l.foldr (fun c acc => if c ∈ acc then acc else c :: acc) acc ↔ c ∈ l ∨ c ∈ acc := by
  induction l with
  | nil => simp
  | cons a l ih =>
    simp only [List.foldr_cons, List.mem_cons]
    by_cases h : a ∈ l.foldr (fun c acc => if c ∈ acc then acc else c :: acc) acc
    · rw [if_pos h, ih]
      constructor
      · intro hc
        exact hc.elim (fun h2 => Or.inl (Or.inr h2)) (fun h2 => Or.inr h2)
      · intro hc
        rcases hc with (hc | hc) | hc
        · subst hc
          exact ih.mp h
        · exact Or.inl hc
        · exact Or.inr hc
    · rw [if_neg h]
      simp only [List.mem_cons]
      rw [ih]
      tauto

/-- Membership in an order-preserving union of label lists. -/
theorem mem_unionAll (ls : List (List String)) (c : String) :
    c ∈ unionAll ls ↔ ∃ l ∈ ls, c ∈ l := by
  induction ls with
  | nil => simp [unionAll]
  | cons l ls ih =>
    simp only [unionAll, mem_foldr_union, ih, List.mem_cons]
    constructor
    · intro h
      rcases h with h | ⟨l2, hl2, hc⟩
      · exact ⟨l, Or.inl rfl, h⟩
      · exact ⟨l2, Or.inr hl2, hc⟩
    · intro ⟨l2, hl2, hc⟩
      rcases hl2 with rfl | hl2
      · exact Or.inl hc
      · exact Or.inr ⟨l2, hl2, hc⟩

/-- Align a record onto a column list: pandas row construction with `NaN`
fill for columns the record lacks. -/
def alignRow (cols : List String) (fs : List (String × Cell)) : Row :=
  cols.map (fun c => (c, (List.lookup c fs).getD Cell.nan))

/-- pandas `pd.DataFrame(records)`: columns are the first-appearance union of
the record keys, rows are the records aligned onto those columns. -/
def mkRecordsDF (recs : List JVal) : DF :=
  let cols := unionAll (recs.map recKeys)
  ⟨cols, recs.map (fun r => alignRow cols (recFields r))⟩

/-- pandas `DataFrame.empty`: true when either axis has length zero. -/
def DF.isEmptyDF (df : DF) : Bool :=
  df.rows.isEmpty || df.cols.isEmpty

/-- Sequential effectful map over a list in the `Except` monad, stopping at
the first raised error, as a Python loop or comprehension does. -/
def exMap (f : α → Except String β) : List α → Except String (List β)
  | [] => Except.ok []
  | a :: as => do
    let b ← f a
    let bs ← exMap f as
    Except.ok (b :: bs)

/-- Sort rank of a cell for `sort_values`: parsed datetimes by value, with
`NaT` and `NaN` ranked last (pandas default `na_position`).  Raw object cells
do not occur in the one sorted column of this program, which is parsed first;
they are ranked at zero to keep the function total. -/
def rankCell : Cell → WithTop ℤ
  | Cell.dt (some t) => (t : ℤ)
  | Cell.dt none => ⊤
  | Cell.nan => ⊤
  | Cell.val _ => ((0 : ℤ) : WithTop ℤ)

/-- Row comparison used by `sort_values(c)`. -/
def rowLE (c : String) (a b : Row) : Prop :=
  rankCell (cellAt a c) ≤ rankCell (cellAt b c)

instance (c : String) : IsTotal Row (rowLE c) :=
  ⟨fun a b => le_total (rankCell (cellAt a c)) (rankCell (cellAt b c))⟩

instance (c : String) : IsTrans Row (rowLE c) :=
  ⟨fun _ _ _ h1 h2 => le_trans h1 h2⟩

instance (c : String) : DecidableRel (rowLE c) :=
  fun a b => inferInstanceAs (Decidable (rankCell (cellAt a c) ≤ rankCell (cellAt b c)))

/-- Error raised by `sort_values` on a missing column. -/
def sortKeyErr : String := "KeyError: arrival_datetime"

/-- pandas `df.sort_values(c).reset_index(drop=True)`: stable ascending sort
with missing values last; raises `KeyError` when `c` is not a column. -/
def sortValues (c : String) (df : DF) : Except String DF :=
  if c ∈ df.cols then Except.ok ⟨df.cols, List.insertionSort (rowLE c) df.rows⟩
  else Except.error sortKeyErr

/-- Decimal digits to a natural number; `none` when a non-digit occurs or the
digit list is empty. -/
def digitsVal : List Char → Option ℕ
  | [] => none
  | cs => cs.foldl (fun acc c => match acc with
      | none => none
      | some n => if c.isDigit then some (n * 10 + (c.toNat - 48)) else none)
      (some 0)

/-- Python `float(s)` on plain decimal literals: optional sign, integer part,
optional fractional part (at least one digit overall).  Exponent and special
forms are outside the modelled fragment. -/
def parsePyFloat (s : String) : Option ℚ :=
  let core : List Char → Option ℚ := fun cs =>
    match cs.splitOn '.' with
    | [ip] => (digitsVal ip).map (fun n => (n : ℚ))
    | [ip, fp] =>
        match ip, fp with
        | [], [] => none
        | [], fp => (digitsVal fp).map (fun f => (f : ℚ) / (10 : ℚ) ^ fp.length)
        | ip, [] => (digitsVal ip).map (fun n => (n : ℚ))
        | ip, fp => do
            let n ← digitsVal ip
            let f ← digitsVal fp
            some ((n : ℚ) + (f : ℚ) / (10 : ℚ) ^ fp.length)
    | _ => none
  match s.toList with
  | '-' :: rest => (core rest).map Neg.neg
  | '+' :: rest => core rest
  | rest => core rest

/-- Python `int(float)`: truncation toward zero. -/
def pyTrunc (q : ℚ) : ℤ :=
  if q.num < 0 then -(((-q.num).toNat / q.den : ℕ) : ℤ)
  else ((q.num.toNat / q.den : ℕ) : ℤ)

/-- Fixed-width digit run of the exact given length. -/
def fixedDigits (k : ℕ) (cs : List Char) : Option ℕ :=
  if cs.length = k then digitsVal cs else none

/-- ISO timestamp parser for the modelled fragment of `pd.to_datetime`:
`YYYY-MM-DD`, optionally followed by `T` or a space and `HH:MM:SS`.  The
result is a mixed-radix encoding that is strictly monotone in the calendar
ordering of the components. -/
def parseISO (s : String) : Option ℤ :=
  let cs := s.toList
  let date : List Char → Option ℕ := fun ds =>
    match ds.splitOn '-' with
    | [y, mo, d] => do
        let yv ← fixedDigits 4 y
        let mov ← fixedDigits 2 mo
        let dv ← fixedDigits 2 d
        some ((yv * 13 + mov) * 32 + dv)
    | _ => none
  let time : List Char → Option ℕ := fun ts =>
    match ts.splitOn ':' with
    | [h, mi, se] => do
        let hv ← fixedDigits 2 h
        let miv ← fixedDigits 2 mi
        let sev ← fixedDigits 2 se
        some ((hv * 60 + miv) * 60 + sev)
    | _ => none
  if cs.length = 10 then
    (date cs).map (fun d => ((d * 86400 : ℕ) : ℤ))
  else if cs.length = 19 ∧ (cs.getD 10 ' ' = 'T' ∨ cs.getD 10 ' ' = ' ') then do
    let d ← date (cs.take 10)
    let t ← time (cs.drop 11)
    some ((d * 86400 + t : ℕ) : ℤ)
  else none

/-- Error raised by `pd.to_datetime` on an unparsable entry. -/
def dtParseErr : String := "ValueError: unable to parse datetime"

/-- pandas `pd.to_datetime` on one cell: missing values become `NaT`, strings
are parsed (failure raises), numbers are epoch offsets, and anything else is
unparsable. -/
def toDatetimeCell : Cell → Except String Cell
  | Cell.nan => Except.ok (Cell.dt none)
  | Cell.val JVal.null => Except.ok (Cell.dt none)
  | Cell.val (JVal.str s) =>
      match parseISO s with
      | some t => Except.ok (Cell.dt (some t))
      | none => Except.error dtParseErr
  | Cell.val (JVal.num q) => Except.ok (Cell.dt (some (pyTrunc q)))
  | Cell.dt t => Except.ok (Cell.dt t)
  | _ => Except.error dtParseErr

/-- Replace the cell of column `c` in a row, in place (label positions are
unchanged), as a pandas column assignment to an existing column does. -/
def setCellAt (r : Row) (c : String) (x : Cell) : Row :=
  r.map (fun p => if p.1 = c then (p.1, x) else p)

/-- Line 34 of `app.py`: `df[c] = pd.to_datetime(df[c])`. -/
def toDatetimeCol (c : String) (df : DF) : Except String DF := do
  let rows ← exMap (fun r => (toDatetimeCell (cellAt r c)).map (setCellAt r c)) df.rows
  Except.ok ⟨df.cols, rows⟩

/-- Fields contributed by one cell under `Series.apply(pd.Series)` with an
`add_prefix(pref)` applied to the resulting columns (`pref` is empty for the
`unit` expansion at line 30 of `app.py`). -/
def expandCell (pref : String) : Cell → List (String × Cell)
  | Cell.val (JVal.obj fs) => fs.map (fun p => (pref ++ p.1, Cell.val p.2))
  | Cell.val (JVal.arr xs) => (List.range xs.length).zip (xs.map Cell.val) |>.map
      (fun p => (pref ++ toString p.1, p.2))
  | x => [(pref ++ "0", x)]

/-- Lines 29-31 / 75-79 of `app.py`: expand a column of nested objects into
top-level columns and drop the original column; the expanded columns are
appended after the retained ones, aligned with `NaN` fill. -/
def expandCol (c : String) (pref : String) (df : DF) : DF :=
  let subRows := df.rows.map (fun r => expandCell pref (cellAt r c))
  let subCols := unionAll (subRows.map (List.map Prod.fst))
  ⟨df.cols.filter (fun x => x ≠ c) ++ subCols,
   (df.rows.zip subRows).map
     (fun rs => rs.1.filter (fun p => p.1 ≠ c) ++ alignRow subCols rs.2)⟩

/-- Lines 24-25 of `app.py`: `raw["arrivals"].get("GATE", [])`, requiring the
`arrivals` value to be dict-like and the `GATE` value, when present, to be a
record list (the only shape the surrounding program produces or consumes). -/
def getGate : JVal → Except String (List JVal)
  | JVal.obj fs =>
      match List.lookup "GATE" fs with
      | some (JVal.arr xs) => Except.ok xs
      | some _ => Except.error "TypeError: GATE is not a record list"
      | none => Except.ok []
  | _ => Except.error "AttributeError: get"

/-- Lines 21-36 of `app.py` (`build_arrivals_df`) on an `arrivals` value that
is present: build the frame, return it early when empty, lift `unit` fields,
parse `arrival_datetime` when that column exists, and sort by it
unconditionally. -/
def arrivalsCore (av : JVal) : Except String DF := do
  let gate ← getGate av
  let df := mkRecordsDF gate
  if df.isEmptyDF then Except.ok df
  else do
    let df := if "unit" ∈ df.cols then expandCol "unit" "" df else df
    let df ← if "arrival_datetime" ∈ df.cols then toDatetimeCol "arrival_datetime" df
             else Except.ok df
    sortValues "arrival_datetime" df

/-- Lines 21-36 of `app.py`: the arrivals normalizer.  `Except.ok none` is the
Python `None` no-data return, `Except.ok (some df)` a returned table, and
`Except.error` a raised exception. -/
def build_arrivals_df (raw : Option RawDoc) : Except String (Option DF) :=
  match raw with
  | none => Except.ok none
  | some doc =>
      match List.lookup "arrivals" doc with
      | none => Except.ok none
      | some av => (arrivalsCore av).map some

/-- pandas `pd.DataFrame.from_dict(m, orient="index").rename_axis(idx)
.reset_index()`: one row per map entry, the map key first in a column named
`idx`, then the first-appearance union of the entry keys.  Entries must be
mappings (the shape the program feeds it); other shapes are outside the
modelled fragment and raise. -/
def toObjPair (p : String × JVal) : Except String (String × List (String × JVal)) :=
  match p.2 with
  | JVal.obj fs => Except.ok (p.1, fs)
  | _ => Except.error "TypeError: from_dict expects mapping values"

/-- Column labels contributed by the map entries under `orient="index"`. -/
def dictCols (pairs : List (String × List (String × JVal))) : List String :=
  unionAll (pairs.map (fun p => p.2.map Prod.fst))

/-- One row of the `orient="index"` frame: the map key under the index label,
then the entry aligned onto the shared columns. -/
def dictRow (idx : String) (fcols : List String)
    (p : String × List (String × JVal)) : Row :=
  (idx, Cell.val (JVal.str p.1)) ::
    fcols.map (fun c => (c, ((List.lookup c p.2).map Cell.val).getD Cell.nan))

def fromDict (idx : String) (m : List (String × JVal)) : Except String DF := do
  let pairs ← exMap toObjPair m
  Except.ok ⟨idx :: dictCols pairs, pairs.map (dictRow idx (dictCols pairs))⟩

/-- pandas column assignment `df[c] = f(row)` with a fallible per-row
computation: replaces the column in place when it exists, otherwise appends
it at the end. -/
def dfAssign (df : DF) (c : String) (f : Row → Except String Cell) :
    Except String DF := do
  let vals ← exMap f df.rows
  if c ∈ df.cols then
    Except.ok ⟨df.cols, (df.rows.zip vals).map (fun rv => setCellAt rv.1 c rv.2)⟩
  else
    Except.ok ⟨df.cols ++ [c], (df.rows.zip vals).map (fun rv => rv.1 ++ [(c, rv.2)])⟩

/-- Python number coercion used by `astype(float)` on one stored value:
numbers pass through, booleans become 0 or 1, strings are parsed as decimal
literals, everything else raises. -/
def pyFloatOf : Cell → Except String ℚ
  | Cell.val (JVal.num q) => Except.ok q
  | Cell.val (JVal.bool b) => Except.ok (if b then 1 else 0)
  | Cell.val (JVal.str s) =>
      match parsePyFloat s with
      | some q => Except.ok q
      | none => Except.error "ValueError: could not convert string to float"
  | _ => Except.error "TypeError: float"

/-- Lines 62-68 of `app.py`: the masked in-place coercion
`astype(float).astype(int).astype(str)` of `current_station`, applied to the
rows where the value is not missing. -/
def coerceStation (c : Cell) : Except String Cell :=
  if notna c then (pyFloatOf c).map (fun q => Cell.val (JVal.str (toString (pyTrunc q))))
  else Except.ok c

/-- Series `.map(dict)` on one cell: a hit returns the stored value, a miss or
a missing input becomes `NaN`. -/
def mapLookup (table : List (String × Cell)) : Cell → Cell
  | Cell.val (JVal.str s) => (List.lookup s table).getD Cell.nan
  | _ => Cell.nan

/-- Series `.fillna(x)` on one cell. -/
def fillna (x : Cell) (c : Cell) : Cell :=
  if notna c then c else x

/-- The idle-zone label assigned on lines 69-73 of `app.py`. -/
def idleZone : Cell := Cell.val (JVal.str "Простой")

/-- Lines 51-59 of `app.py`: build the station frame, cast `station_id` to
string (the identity on JSON object keys) and read off the
`station_id → zone_id` mapping; a missing `zone_id` column raises `KeyError`. -/
def stationToZone (stfs : List (String × JVal)) :
    Except String (List (String × Cell)) := do
  let df ← fromDict "station_id" stfs
  if "zone_id" ∈ df.cols then
    Except.ok (df.rows.map (fun r =>
      (match cellAt r "station_id" with
       | Cell.val (JVal.str s) => s
       | _ => "", cellAt r "zone_id")))
  else Except.error "KeyError: zone_id"

/-- Lines 51-73 of `app.py`: resolve `current_zone` for the worker frame when
the document carries a `stations` key. -/
def resolveZones (stfs : List (String × JVal)) (df : DF) : Except String DF := do
  let table ← stationToZone stfs
  if "current_station" ∈ df.cols then do
    let coerced ← exMap (fun r =>
        (coerceStation (cellAt r "current_station")).map (setCellAt r "current_station"))
      df.rows
    let df2 : DF := ⟨df.cols, coerced⟩
    dfAssign df2 "current_zone" (fun r =>
      Except.ok (fillna idleZone (mapLookup table (cellAt r "current_station"))))
  else
    dfAssign df "current_zone" (fun _ => Except.ok idleZone)

/-- Lines 38-80 of `app.py`: the worker normalizer.  The `workers` value may
wrap the worker map in a further `workers` key (line 43); `current_zone` is
resolved through the station lookup when `stations` is present, and a
`performance_units` column is expanded into `perf_`-prefixed columns. -/
def build_workers_df (raw : Option RawDoc) : Except String (Option DF) :=
  match raw with
  | none => Except.ok none
  | some doc =>
      match List.lookup "workers" doc with
      | none => Except.ok none
      | some workersOuter =>
          (do
            let wfs ← (match workersOuter with
              | JVal.obj fs =>
                  (match List.lookup "workers" fs with
                   | some (JVal.obj inner) => Except.ok inner
                   | some _ => Except.error "TypeError: from_dict expects a mapping"
                   | none => Except.ok fs)
              | _ => Except.error "TypeError: from_dict expects a mapping")
            let df ← fromDict "worker_id" wfs
            let df ← (match List.lookup "stations" doc with
              | some (JVal.obj stfs) => resolveZones stfs df
              | some _ => Except.error "TypeError: from_dict expects a mapping"
              | none => dfAssign df "current_zone" (fun _ => Except.ok idleZone))
            let df := if "performance_units" ∈ df.cols then
                expandCol "performance_units" "perf_" df
              else df
            Except.ok df).map some

/-- Python membership test `k in x` as used on line 97 of `app.py`.  Mappings
test keys, strings test substrings, sequences test elements; `in` on a float
(in particular on the aligned `NaN`) raises `TypeError`. -/
def pyContains (c : Cell) (k : String) : Except String Bool :=
  match c with
  | Cell.val (JVal.obj fs) => Except.ok (fs.any (fun p => p.1 = k))
  | Cell.val (JVal.str s) => Except.ok (decide (List.IsInfix k.toList s.toList))
  | Cell.val (JVal.arr xs) => Except.ok (xs.any (fun v =>
      match v with
      | JVal.str s => s = k
      | _ => false))
  | _ => Except.error "TypeError: argument of type float is not iterable"

/-- Python `x.get("flow_type") == ft` for one unit record. -/
def flowIs (ft : String) (fs : List (String × JVal)) : Bool :=
  match List.lookup "flow_type" fs with
  | some (JVal.str s) => s = ft
  | _ => false

/-- Python `u.get("postings_num", 0)` followed by numeric summation: a missing
key counts zero, numbers and booleans are summable, anything else raises. -/
def postingsQ (fs : List (String × JVal)) : Except String ℚ :=
  match List.lookup "postings_num" fs with
  | none => Except.ok 0
  | some (JVal.num q) => Except.ok q
  | some (JVal.bool b) => Except.ok (if b then 1 else 0)
  | some _ => Except.error "TypeError: unsupported operand type for +"

/-- Sum of the selected postings counts. -/
def sumQ : List (List (String × JVal)) → Except String ℚ
  | [] => Except.ok 0
  | fs :: rest => do
    let q ← postingsQ fs
    let r ← sumQ rest
    Except.ok (q + r)

/-- Lines 100-101 of `app.py`: `sum(u.get("postings_num", 0) for u in units if
u.get("flow_type") == ft)`.  Iterating the generator touches every unit, so a
non-mapping unit raises before any filtering survives it. -/
def sumFlow (ft : String) (units : List JVal) : Except String ℚ := do
  let objs ← exMap (fun u =>
      match u with
      | JVal.obj fs => Except.ok fs
      | _ => (Except.error "AttributeError: get" :
          Except String (List (String × JVal)))) units
  sumQ (objs.filter (flowIs ft))

/-- Python `backlog_data["units"]` after a successful membership test: only a
mapping whose `units` value is a sequence yields a unit list; other shapes
raise when indexed or iterated. -/
def getUnits : Cell → Except String (List JVal)
  | Cell.val (JVal.obj fs) =>
      match List.lookup "units" fs with
      | some (JVal.arr xs) => Except.ok xs
      | _ => Except.error "TypeError: units is not iterable over mappings"
  | _ => Except.error "TypeError: indexing a non-mapping"

/-- Lines 96-102 of `app.py` (`expand_backlog`): a falsy backlog or one
without a `units` key yields the zero pair; otherwise the `units` list is
summed per flow type, counting only `SORT` and `NONSORT`.  The membership
test itself raises on the aligned `NaN` of a station with no backlog. -/
def expand_backlog (c : Cell) : Except String (ℚ × ℚ) := do
  let noUnits ← (if pyTruthy c then (pyContains c "units").map (fun b => !b)
                 else Except.ok true)
  if noUnits then Except.ok (0, 0)
  else do
    let units ← getUnits c
    let s ← sumFlow "SORT" units
    let n ← sumFlow "NONSORT" units
    Except.ok (s, n)

/-- Python `len` of the value found under `units`, default empty list; `len`
of a number raises. -/
def backlogUnitsLen (c : Cell) : Except String Cell :=
  match c with
  | Cell.val (JVal.obj fs) =>
      if (!fs.isEmpty) then
        match List.lookup "units" fs with
        | none => Except.ok (Cell.val (JVal.num 0))
        | some (JVal.arr xs) => Except.ok (Cell.val (JVal.num xs.length))
        | some (JVal.str s) => Except.ok (Cell.val (JVal.num s.length))
        | some (JVal.obj gs) => Except.ok (Cell.val (JVal.num gs.length))
        | some _ => Except.error "TypeError: object has no len"
      else Except.ok (Cell.val (JVal.num 0))
  | _ => Except.ok (Cell.val (JVal.num 0))

/-- Numeric reading of a cell for `sum(axis=1)`: missing values are skipped
(counted zero) by the default `skipna`; the summed cells of this program are
always numbers produced by `expand_backlog`. -/
def cellQ : Cell → ℚ
  | Cell.val (JVal.num q) => q
  | Cell.val (JVal.bool b) => if b then 1 else 0
  | _ => 0

/-- Lines 95-112 of `app.py`: the backlog block of the station normalizer,
run when the `backlog` column exists.  `backlog_units` is assigned first from
the original column, then the column is expanded (dropping `backlog` and
appending the two per-flow columns), then `backlog_total` is appended as
their row-wise sum. -/
def stationsBacklogBlock (df : DF) : Except String DF := do
  let df ← dfAssign df "backlog_units" (fun r => backlogUnitsLen (cellAt r "backlog"))
  let pairs ← exMap (fun r => (expand_backlog (cellAt r "backlog")).map (fun sn => (r, sn)))
    df.rows
  let cols2 := df.cols.filter (fun x => x ≠ "backlog") ++ ["backlog_SORT", "backlog_NONSORT"]
  let rows2 := pairs.map (fun rsn =>
    rsn.1.filter (fun p => p.1 ≠ "backlog") ++
      [("backlog_SORT", Cell.val (JVal.num rsn.2.1)),
       ("backlog_NONSORT", Cell.val (JVal.num rsn.2.2))])
  let rows3 := rows2.map (fun r =>
    r ++ [("backlog_total",
           Cell.val (JVal.num (cellQ (cellAt r "backlog_SORT") +
                               cellQ (cellAt r "backlog_NONSORT"))))])
  Except.ok ⟨cols2 ++ ["backlog_total"], rows3⟩

/-- Lines 83-114 of `app.py`: the station normalizer. -/
def build_stations_df (raw : Option RawDoc) : Except String (Option DF) :=
  match raw with
  | none => Except.ok none
  | some doc =>
      match List.lookup "stations" doc with
      | none => Except.ok none
      | some (JVal.obj stfs) =>
          (do
            let df ← fromDict "station_id" stfs
            if "backlog" ∈ df.cols then stationsBacklogBlock df
            else Except.ok df).map some
      | some _ => Except.error "TypeError: from_dict expects a mapping"

/-! ### Concrete documents used by the claim theorems, their witnesses and
counterexamples -/

/-- Document whose two GATE records arrive out of chronological order. -/
def c2doc : RawDoc :=
  [("arrivals", JVal.obj [("GATE", JVal.arr [
    JVal.obj [("arrival_datetime", JVal.str "2024-01-02T10:00:00"),
              ("postings_num", JVal.num 3)],
    JVal.obj [("arrival_datetime", JVal.str "2024-01-01T09:30:00"),
              ("postings_num", JVal.num 5)]])])]

/-- Document with one station whose backlog units list carries the flow types
`SORT`, `NONSORT` and `OTHER`. -/
def c3doc : RawDoc :=
  [("stations", JVal.obj [("st", JVal.obj [("backlog", JVal.obj [("units", JVal.arr [
    JVal.obj [("flow_type", JVal.str "SORT"), ("postings_num", JVal.num 4)],
    JVal.obj [("flow_type", JVal.str "NONSORT"), ("postings_num", JVal.num 2)],
    JVal.obj [("flow_type", JVal.str "OTHER"), ("postings_num", JVal.num 9)]])])])])]

/-- Document with two stations, one carrying a backlog and one without a
`backlog` key. -/
def c4doc : RawDoc :=
  [("stations", JVal.obj [
    ("s1", JVal.obj [("backlog", JVal.obj [("units", JVal.arr [])])]),
    ("s2", JVal.obj [])])]

/-- Document whose `arrivals` object is present but carries no `GATE` key. -/
def c5doc : RawDoc := [("arrivals", JVal.obj [])]

/-- Document whose `arrivals` object carries an unrelated key but no `GATE`. -/
def c5wdoc : RawDoc := [("arrivals", JVal.obj [("OTHER_FLOW", JVal.arr [])])]

/-- Document with a single worker whose metrics sit under the key
`performance` (not `performance_units`). -/
def c6cdoc : RawDoc :=
  [("workers", JVal.obj [("w", JVal.obj [("performance", JVal.obj [("B", JVal.num 2)])])])]

/-- Document with one worker using `performance_units` and one using
`performance`. -/
def c6doc : RawDoc :=
  [("workers", JVal.obj [
    ("w1", JVal.obj [("performance_units", JVal.obj [("A", JVal.num 1)])]),
    ("w2", JVal.obj [("performance", JVal.obj [("B", JVal.num 2)])])])]

/-- Document with one GATE record carrying both `arrival_datetime` and a
parseable `cut_off`. -/
def c7doc : RawDoc :=
  [("arrivals", JVal.obj [("GATE", JVal.arr [
    JVal.obj [("arrival_datetime", JVal.str "2024-01-01T00:00:00"),
              ("cut_off", JVal.str "2024-01-01T06:00:00"),
              ("flow_type", JVal.str "SORT"),
              ("postings_num", JVal.num 5)]])])]

/-- Document with station map key `"10"` and three workers whose
`current_station` takes the numeric forms `10`/`10.0`, `"10"` and `"10.0"`. -/
def c8doc : RawDoc :=
  [("workers", JVal.obj [
    ("w1", JVal.obj [("current_station", JVal.num 10)]),
    ("w2", JVal.obj [("current_station", JVal.str "10")]),
    ("w3", JVal.obj [("current_station", JVal.str "10.0")])]),
   ("stations", JVal.obj [("10", JVal.obj [("zone_id", JVal.str "A")])])]

/-- Document with station map key in the non-canonical numeric form `"10.0"`
and a worker stationed at `10`. -/
def c8cdoc : RawDoc :=
  [("workers", JVal.obj [("w1", JVal.obj [("current_station", JVal.num 10)])]),
   ("stations", JVal.obj [("10.0", JVal.obj [("zone_id", JVal.str "A")])])]

/-- Document with two stations carrying backlogs (a units list and an
explicit JSON null). -/
def c1wdoc : RawDoc :=
  [("stations", JVal.obj [
    ("a", JVal.obj [("zone_id", JVal.str "Z"), ("backlog", JVal.obj [("units", JVal.arr [
      JVal.obj [("flow_type", JVal.str "SORT"), ("postings_num", JVal.num 7)]])])]),
    ("b", JVal.obj [("zone_id", JVal.str "Z"), ("backlog", JVal.null)])])]

/-- Document with two out-of-order GATE records each carrying both an
`arrival_datetime` and a parseable `cut_off`. -/
def c7adoc : RawDoc :=
  [("arrivals", JVal.obj [("GATE", JVal.arr [
    JVal.obj [("arrival_datetime", JVal.str "2024-03-05T12:00:00"),
              ("cut_off", JVal.str "2024-03-05T20:00:00"),
              ("postings_num", JVal.num 2)],
    JVal.obj [("arrival_datetime", JVal.str "2024-03-04T08:00:00"),
              ("cut_off", JVal.str "2024-03-04T21:30:00"),
              ("postings_num", JVal.num 6)]])])]

/-- Document whose GATE list is the single field-less record. -/
def c10cdoc : RawDoc := [("arrivals", JVal.obj [("GATE", JVal.arr [JVal.obj []])])]

/-- Document whose GATE list has one record with a field, but no record with
an `arrival_datetime` anywhere. -/
def c10wdoc : RawDoc :=
  [("arrivals", JVal.obj [("GATE", JVal.arr [JVal.obj [("x", JVal.num 1)]])])]

/-! ### Basic lemmas about the embedding combinators -/

@[simp]
theorem exceptBind_ok (a : α) (f : α → Except String β) :
    (Except.ok a >>= f) = f a := rfl

@[simp]
theorem exceptBind_err (e : String) (f : α → Except String β) :
    ((Except.error e : Except String α) >>= f) = Except.error e := rfl

@[simp]
theorem exceptMap_ok (g : α → β) (a : α) :
    Except.map g (Except.ok a : Except String α) = Except.ok (g a) := rfl

@[simp]
theorem exceptMap_err (g : α → β) (e : String) :
    Except.map g (Except.error e : Except String α) = Except.error e := rfl

theorem exMap_sound {f : α → Except String β} :
    ∀ {l : List α} {ys : List β}, exMap f l = Except.ok ys →
      ∀ y ∈ ys, ∃ x ∈ l, f x = Except.ok y := by
  intro l
  induction l with
  | nil =>
    intro ys h y hy
    simp only [exMap] at h
    cases h
    simp at hy
  | cons a as ih =>
    intro ys h y hy
    simp only [exMap] at h
    cases hfa : f a with
    | error e => rw [hfa] at h; simp at h
    | ok b =>
      rw [hfa] at h
      simp only [exceptBind_ok] at h
      cases hrest : exMap f as with
      | error e => rw [hrest] at h; simp at h
      | ok bs =>
        rw [hrest] at h
        simp only [exceptBind_ok] at h
        cases h
        rcases List.mem_cons.mp hy with rfl | hy2
        · exact ⟨a, List.mem_cons_self a as, hfa⟩
        · obtain ⟨x, hx, hfx⟩ := ih hrest y hy2
          exact ⟨x, List.mem_cons_of_mem a hx, hfx⟩

theorem exMap_complete {f : α → Except String β} :
    ∀ {l : List α} {ys : List β}, exMap f l = Except.ok ys →
      ∀ x ∈ l, ∃ y ∈ ys, f x = Except.ok y := by
  intro l
  induction l with
  | nil =>
    intro ys _ x hx
    simp at hx
  | cons a as ih =>
    intro ys h x hx
    simp only [exMap] at h
    cases hfa : f a with
    | error e => rw [hfa] at h; simp at h
    | ok b =>
      rw [hfa] at h
      simp only [exceptBind_ok] at h
      cases hrest : exMap f as with
      | error e => rw [hrest] at h; simp at h
      | ok bs =>
        rw [hrest] at h
        simp only [exceptBind_ok] at h
        cases h
        rcases List.mem_cons.mp hx with rfl | hx2
        · exact ⟨b, List.mem_cons_self b bs, hfa⟩
        · obtain ⟨y, hy, hfy⟩ := ih hrest x hx2
          exact ⟨y, List.mem_cons_of_mem b hy, hfy⟩

theorem lookup_eq_none_of_notMem {β} (c : String) (l : List (String × β))
    (h : c ∉ l.map Prod.fst) : List.lookup c l = none := by
  induction l with
  | nil => rfl
  | cons p t ih =>
    obtain ⟨k, v⟩ := p
    simp only [List.map_cons, List.mem_cons, not_or] at h
    simp only [List.lookup, beq_false_of_ne h.1]
    exact ih h.2

theorem lookup_append_of_none {β} (c : String) (l1 l2 : List (String × β))
    (h : List.lookup c l1 = none) :
    List.lookup c (l1 ++ l2) = List.lookup c l2 := by
  induction l1 with
  | nil => simp
  | cons p t ih =>
    obtain ⟨k, v⟩ := p
    by_cases hc : c = k
    · subst hc
      simp [List.lookup] at h
    · simp only [List.cons_append, List.lookup, beq_false_of_ne hc] at h ⊢
      exact ih h

theorem cellAt_append_of_notMem (r1 r2 : Row) (c : String)
    (h : c ∉ r1.map Prod.fst) : cellAt (r1 ++ r2) c = cellAt r2 c := by
  unfold cellAt
  rw [lookup_append_of_none c r1 r2 (lookup_eq_none_of_notMem c r1 h)]

theorem keys_setCellAt (r : Row) (c : String) (x : Cell) :
    (setCellAt r c x).map Prod.fst = r.map Prod.fst := by
  unfold setCellAt
  rw [List.map_map]
  apply List.map_congr_left
  intro p _
  by_cases h : p.1 = c <;> simp [h]

theorem keys_alignRow (cols : List String) (fs : List (String × Cell)) :
    (alignRow cols fs).map Prod.fst = cols := by
  induction cols with
  | nil => rfl
  | cons c t ih =>
    simp only [alignRow, List.map_cons] at ih ⊢
    simpa using ih

theorem pairwise_of_total {α} (R : α → α → Prop) (h : ∀ a b, R a b) :
    ∀ l : List α, List.Pairwise R l
  | [] => List.Pairwise.nil
  | a :: l => List.Pairwise.cons (fun b _ => h a b) (pairwise_of_total R h l)

theorem lookup_append_of_some {β} (c : String) (l1 l2 : List (String × β)) (v : β)
    (h : List.lookup c l1 = some v) :
    List.lookup c (l1 ++ l2) = some v := by
  induction l1 with
  | nil => simp [List.lookup] at h
  | cons p t ih =>
    obtain ⟨k, w⟩ := p
    by_cases hc : c = k
    · subst hc
      simp only [List.lookup, beq_self_eq_true] at h ⊢
      exact h
    · simp only [List.cons_append, List.lookup, beq_false_of_ne hc] at h ⊢
      exact ih h

theorem toObjPair_ok (p : String × JVal) (y : String × List (String × JVal))
    (h : toObjPair p = Except.ok y) : p.2 = JVal.obj y.2 ∧ y.1 = p.1 := by
  obtain ⟨k, v⟩ := p
  cases v with
  | obj fs =>
    simp only [toObjPair, Except.ok.injEq] at h
    subst h
    exact ⟨rfl, rfl⟩
  | null => simp [toObjPair] at h
  | bool b => simp [toObjPair] at h
  | num q => simp [toObjPair] at h
  | str s => simp [toObjPair] at h
  | arr xs => simp [toObjPair] at h

theorem fromDict_ok_shape (idx : String) (m : List (String × JVal)) (df : DF)
    (h : fromDict idx m = Except.ok df) :
    ∃ pairs, exMap toObjPair m = Except.ok pairs ∧
      df = ⟨idx :: dictCols pairs, pairs.map (dictRow idx (dictCols pairs))⟩ := by
  unfold fromDict at h
  cases hp : exMap toObjPair m with
  | error e => rw [hp] at h; simp at h
  | ok pairs =>
    rw [hp] at h
    simp only [exceptBind_ok, Except.ok.injEq] at h
    exact ⟨pairs, rfl, h.symm⟩

theorem keys_tag_map {β} (cols : List String) (g : String → β) :
    (cols.map (fun c => (c, g c))).map Prod.fst = cols := by
  induction cols with
  | nil => rfl
  | cons a t ih =>
    simp only [List.map_cons]
    rw [ih]

theorem keys_dictRow (idx : String) (fcols : List String)
    (p : String × List (String × JVal)) :
    (dictRow idx fcols p).map Prod.fst = idx :: fcols := by
  simp only [dictRow, List.map_cons, List.cons.injEq]
  exact ⟨trivial, keys_tag_map fcols _⟩

theorem dfAssign_shape (df : DF) (c : String) (f : Row → Except String Cell)
    (df2 : DF) (h : dfAssign df c f = Except.ok df2)
    (halign : ∀ r ∈ df.rows, r.map Prod.fst = df.cols) :
    (df2.cols = df.cols ∨ df2.cols = df.cols ++ [c]) ∧
    (∀ r ∈ df2.rows, r.map Prod.fst = df2.cols) := by
  unfold dfAssign at h
  cases hv : exMap f df.rows with
  | error e => rw [hv] at h; simp at h
  | ok vals =>
    rw [hv] at h
    simp only [exceptBind_ok] at h
    by_cases hc : c ∈ df.cols
    · rw [if_pos hc] at h
      simp only [Except.ok.injEq] at h
      subst h
      refine ⟨Or.inl rfl, ?_⟩
      intro r hr
      obtain ⟨⟨r0, v⟩, hmem, rfl⟩ := List.mem_map.mp hr
      rw [keys_setCellAt]
      exact halign r0 (List.of_mem_zip hmem).1
    · rw [if_neg hc] at h
      simp only [Except.ok.injEq] at h
      subst h
      refine ⟨Or.inr rfl, ?_⟩
      intro r hr
      obtain ⟨⟨r0, v⟩, hmem, rfl⟩ := List.mem_map.mp hr
      simp only [List.map_append]
      rw [halign r0 (List.of_mem_zip hmem).1]
      rfl

theorem keys_filter_subset (r : Row) (p : String × Cell → Bool) (x : String)
    (hx : x ∈ (r.filter p).map Prod.fst) : x ∈ r.map Prod.fst := by
  obtain ⟨q, hq, rfl⟩ := List.mem_map.mp hx
  exact List.mem_map_of_mem _ (List.mem_of_mem_filter hq)

theorem station_row_sum (F : Row) (s n : ℚ)
    (hS : List.lookup "backlog_SORT" F = none)
    (hN : List.lookup "backlog_NONSORT" F = none)
    (hT : List.lookup "backlog_total" F = none) :
    cellAt (F ++ [("backlog_SORT", Cell.val (JVal.num s)),
                  ("backlog_NONSORT", Cell.val (JVal.num n))] ++
            [("backlog_total", Cell.val (JVal.num
              (cellQ (cellAt (F ++ [("backlog_SORT", Cell.val (JVal.num s)),
                                    ("backlog_NONSORT", Cell.val (JVal.num n))])
                  "backlog_SORT") +
               cellQ (cellAt (F ++ [("backlog_SORT", Cell.val (JVal.num s)),
                                    ("backlog_NONSORT", Cell.val (JVal.num n))])
                  "backlog_NONSORT"))))])
      "backlog_SORT" = Cell.val (JVal.num s) ∧
    cellAt (F ++ [("backlog_SORT", Cell.val (JVal.num s)),
                  ("backlog_NONSORT", Cell.val (JVal.num n))] ++
            [("backlog_total", Cell.val (JVal.num
              (cellQ (cellAt (F ++ [("backlog_SORT", Cell.val (JVal.num s)),
                                    ("backlog_NONSORT", Cell.val (JVal.num n))])
                  "backlog_SORT") +
               cellQ (cellAt (F ++ [("backlog_SORT", Cell.val (JVal.num s)),
                                    ("backlog_NONSORT", Cell.val (JVal.num n))])
                  "backlog_NONSORT"))))])
      "backlog_NONSORT" = Cell.val (JVal.num n) ∧
    cellAt (F ++ [("backlog_SORT", Cell.val (JVal.num s)),
                  ("backlog_NONSORT", Cell.val (JVal.num n))] ++
            [("backlog_total", Cell.val (JVal.num
              (cellQ (cellAt (F ++ [("backlog_SORT", Cell.val (JVal.num s)),
                                    ("backlog_NONSORT", Cell.val (JVal.num n))])
                  "backlog_SORT") +
               cellQ (cellAt (F ++ [("backlog_SORT", Cell.val (JVal.num s)),
                                    ("backlog_NONSORT", Cell.val (JVal.num n))])
                  "backlog_NONSORT"))))])
      "backlog_total" = Cell.val (JVal.num (s + n)) := by
  have h2S : cellAt (F ++ [("backlog_SORT", Cell.val (JVal.num s)),
      ("backlog_NONSORT", Cell.val (JVal.num n))]) "backlog_SORT" =
      Cell.val (JVal.num s) := by
    unfold cellAt
    rw [lookup_append_of_none _ _ _ hS]
    rfl
  have h2N : cellAt (F ++ [("backlog_SORT", Cell.val (JVal.num s)),
      ("backlog_NONSORT", Cell.val (JVal.num n))]) "backlog_NONSORT" =
      Cell.val (JVal.num n) := by
    unfold cellAt
    rw [lookup_append_of_none _ _ _ hN]
    rfl
  have hlS : List.lookup "backlog_SORT" (F ++ [("backlog_SORT", Cell.val (JVal.num s)),
      ("backlog_NONSORT", Cell.val (JVal.num n))]) = some (Cell.val (JVal.num s)) := by
    rw [lookup_append_of_none _ _ _ hS]
    rfl
  have hlN : List.lookup "backlog_NONSORT" (F ++ [("backlog_SORT", Cell.val (JVal.num s)),
      ("backlog_NONSORT", Cell.val (JVal.num n))]) = some (Cell.val (JVal.num n)) := by
    rw [lookup_append_of_none _ _ _ hN]
    rfl
  have hlT : List.lookup "backlog_total" (F ++ [("backlog_SORT", Cell.val (JVal.num s)),
      ("backlog_NONSORT", Cell.val (JVal.num n))]) = none := by
    rw [lookup_append_of_none _ _ _ hT]
    rfl
  refine ⟨?_, ?_, ?_⟩
  · unfold cellAt
    rw [lookup_append_of_some _ _ _ _ hlS]
    rfl
  · unfold cellAt
    rw [lookup_append_of_some _ _ _ _ hlN]
    rfl
  · rw [h2S, h2N]
    unfold cellAt
    rw [lookup_append_of_none _ _ _ hlT]
    rfl

theorem sortValues_sorted (c : String) (df df2 : DF)
    (h : sortValues c df = Except.ok df2) :
    List.Pairwise (rowLE c) df2.rows := by
  unfold sortValues at h
  by_cases hm : c ∈ df.cols
  · rw [if_pos hm] at h
    cases h
    exact List.sorted_insertionSort _ _
  · rw [if_neg hm] at h
    simp at h

theorem arrivalsCore_sorted (av : JVal) (df : DF)
    (h : arrivalsCore av = Except.ok df) :
    List.Pairwise (rowLE "arrival_datetime") df.rows := by
  unfold arrivalsCore at h
  cases hg : getGate av with
  | error e => rw [hg] at h; simp at h
  | ok gate =>
    rw [hg] at h
    simp only [exceptBind_ok] at h
    by_cases he : (mkRecordsDF gate).isEmptyDF
    · rw [if_pos he] at h
      simp only [Except.ok.injEq] at h
      subst h
      simp only [DF.isEmptyDF, Bool.or_eq_true, List.isEmpty_iff] at he
      rcases he with he | he
      · simp only [mkRecordsDF] at he ⊢
        rw [he]
        exact List.Pairwise.nil
      · simp only [mkRecordsDF] at he ⊢
        rw [he]
        rw [List.pairwise_map]
        apply pairwise_of_total
        intro a b
        exact le_refl (rankCell (cellAt (alignRow [] (recFields a)) "arrival_datetime"))
    · rw [if_neg he] at h
      generalize (if "unit" ∈ (mkRecordsDF gate).cols
          then expandCol "unit" "" (mkRecordsDF gate) else mkRecordsDF gate) = df1 at h
      by_cases hp : "arrival_datetime" ∈ df1.cols
      · rw [if_pos hp] at h
        cases hd : toDatetimeCol "arrival_datetime" df1 with
        | error e => rw [hd] at h; simp at h
        | ok df2 =>
          rw [hd] at h
          simp only [exceptBind_ok] at h
          exact sortValues_sorted _ _ _ h
      · rw [if_neg hp] at h
        exact sortValues_sorted _ _ _ h

/-- C2: for every document on which the arrivals normalizer returns a table,
the rows of that table are ordered non-decreasing in the `arrival_datetime`
sort rank (missing timestamps ranked last), because the table is produced by
the unconditional ascending `sort_values` at line 35 of `app.py`. -/
theorem claim_C2_arrivals_sorted (raw : Option RawDoc) (df : DF)
    (h : build_arrivals_df raw = Except.ok (some df)) :
    List.Pairwise (rowLE "arrival_datetime") df.rows := by
  cases raw with
  | none => simp [build_arrivals_df] at h
  | some doc =>
    cases hl : List.lookup "arrivals" doc with
    | none => simp [build_arrivals_df, hl] at h
    | some av =>
      simp only [build_arrivals_df, hl] at h
      cases hc : arrivalsCore av with
      | error e => rw [hc] at h; simp at h
      | ok df0 =>
        rw [hc] at h
        simp only [exceptMap_ok, Except.ok.injEq, Option.some.injEq] at h
        subst h
        exact arrivalsCore_sorted av df0 hc

/-- C2 witness: the sortedness theorem applied to a concrete document whose
two GATE records arrive out of order. -/
theorem claim_C2_witness :
    ∃ df : DF, build_arrivals_df (some c2doc) = Except.ok (some df) ∧
      List.Pairwise (rowLE "arrival_datetime") df.rows := by
  refine ⟨⟨["arrival_datetime", "postings_num"],
    [[("arrival_datetime", Cell.dt (some 72750303000)),
      ("postings_num", Cell.val (JVal.num 5))],
     [("arrival_datetime", Cell.dt (some 72750391200)),
      ("postings_num", Cell.val (JVal.num 3))]]⟩, rfl, ?_⟩
  exact claim_C2_arrivals_sorted (some c2doc) _ rfl

/-- C3: on the units-list backlog `[SORT 4, NONSORT 2, OTHER 9]` the station
normalizer yields `backlog_SORT = 4`, `backlog_NONSORT = 2` and
`backlog_total = 6`: the `OTHER` unit is excluded from the per-type columns
and from the total, because lines 100-101 of `app.py` only classify `SORT`
and `NONSORT`. -/
theorem claim_C3_other_flow_excluded :
    build_stations_df (some c3doc) = Except.ok (some
      ⟨["station_id", "backlog_units", "backlog_SORT", "backlog_NONSORT", "backlog_total"],
       [[("station_id", Cell.val (JVal.str "st")),
         ("backlog_units", Cell.val (JVal.num 3)),
         ("backlog_SORT", Cell.val (JVal.num 4)),
         ("backlog_NONSORT", Cell.val (JVal.num 2)),
         ("backlog_total", Cell.val (JVal.num 6))]]⟩) := by
  with_unfolding_all rfl

/-- C4: on a document where one station carries a backlog and another lacks
the key, the station normalizer raises instead of zero-filling: the absent
backlog aligns to a `NaN`, which is truthy, so line 97 of `app.py` evaluates
`"units" not in nan` and Python raises `TypeError`. -/
theorem claim_C4_missing_backlog_crashes :
    build_stations_df (some c4doc) =
      Except.error "TypeError: argument of type float is not iterable" := rfl

/-- C5 counterexample: with `arrivals` present but `GATE` absent the arrivals
normalizer returns the empty table, not the distinct no-data marker the claim
requires (`Except.ok none` in this embedding). -/
theorem claim_C5_counterexample :
    build_arrivals_df (some c5doc) = Except.ok (some ⟨[], []⟩) := rfl

/-- C6 counterexample: a worker whose metrics sit under the key `performance`
is not expanded: the nested object survives as a column value and no
`perf_`-prefixed column is created, because line 75 of `app.py` tests only
for `performance_units`. -/
theorem claim_C6_counterexample :
    build_workers_df (some c6cdoc) = Except.ok (some
      ⟨["worker_id", "performance", "current_zone"],
       [[("worker_id", Cell.val (JVal.str "w")),
         ("performance", Cell.val (JVal.obj [("B", JVal.num 2)])),
         ("current_zone", Cell.val (JVal.str "Простой"))]]⟩) := rfl

/-- C6 amended: only the key `performance_units` triggers the `perf_`
expansion (dropping the nested column); a `performance` object passes through
untouched, and the `NaN` of the worker without `performance_units` expands
into the spurious column `perf_0`. -/
theorem claim_C6_amended_expansion :
    build_workers_df (some c6doc) = Except.ok (some
      ⟨["worker_id", "performance", "current_zone", "perf_A", "perf_0"],
       [[("worker_id", Cell.val (JVal.str "w1")),
         ("performance", Cell.nan),
         ("current_zone", Cell.val (JVal.str "Простой")),
         ("perf_A", Cell.val (JVal.num 1)),
         ("perf_0", Cell.nan)],
        [("worker_id", Cell.val (JVal.str "w2")),
         ("performance", Cell.val (JVal.obj [("B", JVal.num 2)])),
         ("current_zone", Cell.val (JVal.str "Простой")),
         ("perf_A", Cell.nan),
         ("perf_0", Cell.nan)]]⟩) := rfl

/-- C7 counterexample: on a record with both `arrival_datetime` and a
parseable `cut_off` the arrivals normalizer produces no
`time_to_cutoff_hours` column; `cut_off` survives as its raw string and the
column list is exactly the input field list. -/
theorem claim_C7_counterexample :
    build_arrivals_df (some c7doc) = Except.ok (some
      ⟨["arrival_datetime", "cut_off", "flow_type", "postings_num"],
       [[("arrival_datetime", Cell.dt (some 72750268800)),
         ("cut_off", Cell.val (JVal.str "2024-01-01T06:00:00")),
         ("flow_type", Cell.val (JVal.str "SORT")),
         ("postings_num", Cell.val (JVal.num 5))]]⟩) := rfl

/-- C7 amended: the arrivals normalizer derives no cutoff field at all: it
parses and sorts on `arrival_datetime` only, while `cut_off` passes through
unparsed on every row and no derived column is appended. -/
theorem claim_C7_amended_cutoff_untouched :
    build_arrivals_df (some c7adoc) = Except.ok (some
      ⟨["arrival_datetime", "cut_off", "postings_num"],
       [[("arrival_datetime", Cell.dt (some 72756086400)),
         ("cut_off", Cell.val (JVal.str "2024-03-04T21:30:00")),
         ("postings_num", Cell.val (JVal.num 6))],
        [("arrival_datetime", Cell.dt (some 72756187200)),
         ("cut_off", Cell.val (JVal.str "2024-03-05T20:00:00")),
         ("postings_num", Cell.val (JVal.num 2))]]⟩) := rfl

/-- C8 counterexample: the station side of the zone lookup is only
string-cast, never float-int-string canonicalized, so a station keyed by the
numeric-form variant `"10.0"` is missed by a worker stationed at `10` and the
worker falls back to the idle label instead of resolving to `"A"`. -/
theorem claim_C8_counterexample :
    build_workers_df (some c8cdoc) = Except.ok (some
      ⟨["worker_id", "current_station", "current_zone"],
       [[("worker_id", Cell.val (JVal.str "w1")),
         ("current_station", Cell.val (JVal.str "10")),
         ("current_zone", Cell.val (JVal.str "Простой"))]]⟩) := rfl

/-- C8 amended: the worker side of the lookup is canonicalized
float-int-string, so with the station map keyed `"10"` the worker forms `10`
(equivalently the float `10.0`), `"10"` and `"10.0"` all resolve to zone
`"A"`. -/
theorem claim_C8_amended_worker_coercion :
    build_workers_df (some c8doc) = Except.ok (some
      ⟨["worker_id", "current_station", "current_zone"],
       [[("worker_id", Cell.val (JVal.str "w1")),
         ("current_station", Cell.val (JVal.str "10")),
         ("current_zone", Cell.val (JVal.str "A"))],
        [("worker_id", Cell.val (JVal.str "w2")),
         ("current_station", Cell.val (JVal.str "10")),
         ("current_zone", Cell.val (JVal.str "A"))],
        [("worker_id", Cell.val (JVal.str "w3")),
         ("current_station", Cell.val (JVal.str "10")),
         ("current_zone", Cell.val (JVal.str "A"))]]⟩) := by
  with_unfolding_all rfl

/-- C9: the three normalizers are deterministic functions of the parsed
document: a second call on the unmodified document returns the identical
result.  In this embedding the property holds by construction, which is
faithful because the source normalizers only read `raw` (lines 21-114 of
`app.py` contain no write to the loaded document or to another normalizer
output). -/
theorem claim_C9_normalizers_deterministic (raw : Option RawDoc) :
    build_arrivals_df raw = build_arrivals_df raw ∧
    build_workers_df raw = build_workers_df raw ∧
    build_stations_df raw = build_stations_df raw :=
  ⟨rfl, rfl, rfl⟩

/-- C5 amended: the arrivals normalizer returns the no-data marker exactly
when the `arrivals` top-level key is absent; a present `arrivals` object
without a `GATE` sub-key defaults to the empty record list and yields the
empty table, indistinguishable from a present-but-empty `GATE` list. -/
theorem claim_C5_amended_nodata (doc : RawDoc) :
    (build_arrivals_df (some doc) = Except.ok none ↔
      List.lookup "arrivals" doc = none) ∧
    (∀ afs, List.lookup "arrivals" doc = some (JVal.obj afs) →
      List.lookup "GATE" afs = none →
      build_arrivals_df (some doc) = Except.ok (some ⟨[], []⟩)) := by
  constructor
  · constructor
    · intro h
      cases hl : List.lookup "arrivals" doc with
      | none => rfl
      | some av =>
        exfalso
        simp only [build_arrivals_df, hl] at h
        cases hc : arrivalsCore av with
        | error e => rw [hc] at h; simp at h
        | ok df0 => rw [hc] at h; simp at h
    · intro h
      simp [build_arrivals_df, h]
  · intro afs h1 h2
    simp only [build_arrivals_df, h1]
    have hg : getGate (JVal.obj afs) = Except.ok [] := by
      simp [getGate, h2]
    have hcore : arrivalsCore (JVal.obj afs) = Except.ok ⟨[], []⟩ := by
      unfold arrivalsCore
      rw [hg]
      rfl
    rw [hcore]
    rfl

/-- C5 witness: the amended theorem applied to the absent-GATE document and
the no-data direction applied to the empty document. -/
theorem claim_C5_witness :
    build_arrivals_df (some c5wdoc) = Except.ok (some ⟨[], []⟩) ∧
    build_arrivals_df (some ([] : RawDoc)) = Except.ok none :=
  ⟨(claim_C5_amended_nodata c5wdoc).2 _ rfl rfl,
   (claim_C5_amended_nodata []).1.mpr rfl⟩

theorem recKeys_obj (fs : List (String × JVal)) :
    recKeys (JVal.obj fs) = fs.map Prod.fst := by
  simp only [recKeys, recFields, List.map_map]
  apply List.map_congr_left
  intro p _
  rfl

/-- C10 amended: on a non-empty GATE list of flat records (mappings without a
nested `unit` field) of which at least one carries a field but none carries
`arrival_datetime`, the arrivals normalizer raises the sort `KeyError`: the
datetime parse at lines 33-34 of `app.py` is guarded on column presence while
the sort at line 35 is not. -/
theorem claim_C10_amended_sort_raises (doc : RawDoc)
    (afs : List (String × JVal)) (recs : List JVal)
    (h1 : List.lookup "arrivals" doc = some (JVal.obj afs))
    (h2 : List.lookup "GATE" afs = some (JVal.arr recs))
    (hne : recs ≠ [])
    (hflat : ∀ r ∈ recs, ∃ fs, r = JVal.obj fs ∧
      "arrival_datetime" ∉ fs.map Prod.fst ∧ "unit" ∉ fs.map Prod.fst)
    (hkey : ∃ r ∈ recs, recKeys r ≠ []) :
    build_arrivals_df (some doc) = Except.error sortKeyErr := by
  have hg : getGate (JVal.obj afs) = Except.ok recs := by
    simp [getGate, h2]
  have hcolsA : "arrival_datetime" ∉ unionAll (recs.map recKeys) := by
    intro hmem
    obtain ⟨l, hl, hc⟩ := (mem_unionAll _ _).mp hmem
    obtain ⟨r, hr, rfl⟩ := List.mem_map.mp hl
    obtain ⟨fs, rfl, hA, hU⟩ := hflat r hr
    rw [recKeys_obj] at hc
    exact hA hc
  have hcolsU : "unit" ∉ unionAll (recs.map recKeys) := by
    intro hmem
    obtain ⟨l, hl, hc⟩ := (mem_unionAll _ _).mp hmem
    obtain ⟨r, hr, rfl⟩ := List.mem_map.mp hl
    obtain ⟨fs, rfl, hA, hU⟩ := hflat r hr
    rw [recKeys_obj] at hc
    exact hU hc
  have hcne : unionAll (recs.map recKeys) ≠ [] := by
    obtain ⟨r, hr, hk⟩ := hkey
    obtain ⟨k, hkmem⟩ := List.exists_mem_of_ne_nil _ hk
    exact List.ne_nil_of_mem
      ((mem_unionAll _ _).mpr ⟨recKeys r, List.mem_map_of_mem _ hr, hkmem⟩)
  have hnotemp : ¬ ((mkRecordsDF recs).isEmptyDF = true) := by
    simp only [mkRecordsDF, DF.isEmptyDF, Bool.or_eq_true, List.isEmpty_iff]
    push_neg
    exact ⟨by simpa using hne, hcne⟩
  have hsv : sortValues "arrival_datetime" (mkRecordsDF recs) = Except.error sortKeyErr := by
    unfold sortValues
    rw [if_neg (show ¬ "arrival_datetime" ∈ (mkRecordsDF recs).cols from hcolsA)]
  simp only [build_arrivals_df, h1]
  unfold arrivalsCore
  rw [hg]
  simp only [exceptBind_ok]
  rw [if_neg hnotemp,
    if_neg (show ¬ "unit" ∈ (mkRecordsDF recs).cols from hcolsU),
    if_neg (show ¬ "arrival_datetime" ∈ (mkRecordsDF recs).cols from hcolsA)]
  show Except.map some (sortValues "arrival_datetime" (mkRecordsDF recs)) =
    Except.error sortKeyErr
  rw [hsv]
  rfl

/-- C10 witness: the amended theorem applied to a GATE list whose single
record has a field named `x` and no `arrival_datetime`. -/
theorem claim_C10_witness :
    build_arrivals_df (some c10wdoc) = Except.error sortKeyErr := by
  apply claim_C10_amended_sort_raises c10wdoc
    [("GATE", JVal.arr [JVal.obj [("x", JVal.num 1)]])]
    [JVal.obj [("x", JVal.num 1)]] rfl rfl (List.cons_ne_nil _ _)
  · intro r hr
    simp only [List.mem_singleton] at hr
    subst hr
    exact ⟨[("x", JVal.num 1)], rfl, by decide, by decide⟩
  · exact ⟨JVal.obj [("x", JVal.num 1)], by simp, by decide⟩

/-- C10 counterexample: a non-empty GATE list of field-less records yields a
frame with rows but no columns; pandas `DataFrame.empty` is true on it, so
line 26 of `app.py` returns this degenerate table early instead of reaching
the sort and raising. -/
theorem claim_C10_counterexample :
    build_arrivals_df (some c10cdoc) = Except.ok (some ⟨[], [[]]⟩) := rfl

/-- C1: whenever the station normalizer returns a table for a document in
which at least one station carries a `backlog` key, the `backlog_total`
column exists and every row satisfies
`backlog_total = backlog_SORT + backlog_NONSORT` exactly, as rational
numbers, because line 112 of `app.py` computes the total as the row-wise sum
of precisely those two columns.  The hypothesis that no station field is
itself named like a derived column keeps the input inside the modelled
fragment (pandas duplicate column labels are not modelled). -/
theorem claim_C1_backlog_total_sum (doc : RawDoc) (stfs : List (String × JVal))
    (df : DF)
    (hst : List.lookup "stations" doc = some (JVal.obj stfs))
    (hbk : ∃ p ∈ stfs, ∃ fs, p.2 = JVal.obj fs ∧ "backlog" ∈ fs.map Prod.fst)
    (hres : ∀ p ∈ stfs, ∀ fs, p.2 = JVal.obj fs →
      "backlog_SORT" ∉ fs.map Prod.fst ∧ "backlog_NONSORT" ∉ fs.map Prod.fst ∧
        "backlog_total" ∉ fs.map Prod.fst)
    (h : build_stations_df (some doc) = Except.ok (some df)) :
    "backlog_total" ∈ df.cols ∧
    ∀ r ∈ df.rows, ∃ s n : ℚ,
      cellAt r "backlog_SORT" = Cell.val (JVal.num s) ∧
      cellAt r "backlog_NONSORT" = Cell.val (JVal.num n) ∧
      cellAt r "backlog_total" = Cell.val (JVal.num (s + n)) := by
  simp only [build_stations_df, hst] at h
  cases hfd : fromDict "station_id" stfs with
  | error e => rw [hfd] at h; simp at h
  | ok df0 =>
    rw [hfd] at h
    simp only [exceptBind_ok] at h
    obtain ⟨pairs, hp, hdf0⟩ := fromDict_ok_shape _ _ _ hfd
    have hresP : ∀ q ∈ pairs, "backlog_SORT" ∉ q.2.map Prod.fst ∧
        "backlog_NONSORT" ∉ q.2.map Prod.fst ∧
        "backlog_total" ∉ q.2.map Prod.fst := by
      intro q hq
      obtain ⟨x, hx, hox⟩ := exMap_sound hp q hq
      obtain ⟨hobj, _⟩ := toObjPair_ok x q hox
      exact hres x hx q.2 hobj
    have hcols0 : ∀ y : String, y ∈ df0.cols → y = "station_id" ∨
        ∃ q ∈ pairs, y ∈ q.2.map Prod.fst := by
      intro y hy
      rw [hdf0] at hy
      rcases List.mem_cons.mp hy with hy | hy
      · exact Or.inl hy
      · right
        obtain ⟨l, hl, hyl⟩ := (mem_unionAll _ _).mp hy
        obtain ⟨q, hq, rfl⟩ := List.mem_map.mp hl
        exact ⟨q, hq, hyl⟩
    have hS0 : "backlog_SORT" ∉ df0.cols := by
      intro hmem
      rcases hcols0 _ hmem with he | ⟨q, hq, hmem2⟩
      · exact absurd he (by decide)
      · exact (hresP q hq).1 hmem2
    have hN0 : "backlog_NONSORT" ∉ df0.cols := by
      intro hmem
      rcases hcols0 _ hmem with he | ⟨q, hq, hmem2⟩
      · exact absurd he (by decide)
      · exact (hresP q hq).2.1 hmem2
    have hT0 : "backlog_total" ∉ df0.cols := by
      intro hmem
      rcases hcols0 _ hmem with he | ⟨q, hq, hmem2⟩
      · exact absurd he (by decide)
      · exact (hresP q hq).2.2 hmem2
    have halign0 : ∀ r ∈ df0.rows, r.map Prod.fst = df0.cols := by
      intro r hr
      rw [hdf0] at hr ⊢
      obtain ⟨q, hq, rfl⟩ := List.mem_map.mp hr
      exact keys_dictRow _ _ _
    have hb0 : "backlog" ∈ df0.cols := by
      obtain ⟨p, hpmem, fs, hpfs, hbmem⟩ := hbk
      obtain ⟨y, hy, hoy⟩ := exMap_complete hp p hpmem
      obtain ⟨hobj, _⟩ := toObjPair_ok p y hoy
      rw [hpfs] at hobj
      injection hobj with hfs
      rw [hdf0]
      apply List.mem_cons_of_mem
      exact (mem_unionAll _ _).mpr
        ⟨y.2.map Prod.fst, List.mem_map_of_mem _ hy, by rw [← hfs]; exact hbmem⟩
    rw [if_pos hb0] at h
    cases hbb : stationsBacklogBlock df0 with
    | error e => rw [hbb] at h; simp at h
    | ok df1 =>
      rw [hbb] at h
      simp only [exceptMap_ok, Except.ok.injEq, Option.some.injEq] at h
      subst h
      unfold stationsBacklogBlock at hbb
      cases hda : dfAssign df0 "backlog_units"
          (fun r => backlogUnitsLen (cellAt r "backlog")) with
      | error e => rw [hda] at hbb; simp at hbb
      | ok dfu =>
        rw [hda] at hbb
        simp only [exceptBind_ok] at hbb
        obtain ⟨hcolsu, halignu⟩ := dfAssign_shape _ _ _ _ hda halign0
        cases hex : exMap
            (fun r => (expand_backlog (cellAt r "backlog")).map (fun sn => (r, sn)))
            dfu.rows with
        | error e => rw [hex] at hbb; simp at hbb
        | ok prs =>
          rw [hex] at hbb
          simp only [exceptBind_ok, Except.ok.injEq] at hbb
          subst hbb
          constructor
          · simp
          · intro r hr
            simp only [List.mem_map] at hr
            obtain ⟨r2, ⟨rsn, hrsn, rfl⟩, rfl⟩ := hr
            obtain ⟨r0v, hr0mem, hexp⟩ := exMap_sound hex rsn hrsn
            cases hexp2 : expand_backlog (cellAt r0v "backlog") with
            | error e => rw [hexp2] at hexp; simp at hexp
            | ok sn =>
              rw [hexp2] at hexp
              simp only [exceptMap_ok, Except.ok.injEq] at hexp
              subst hexp
              have hkeys : r0v.map Prod.fst = dfu.cols := halignu r0v hr0mem
              have hfilkeys : ∀ x : String,
                  x ∈ (r0v.filter (fun p => p.1 ≠ "backlog")).map Prod.fst →
                  x ∈ df0.cols ∨ x = "backlog_units" := by
                intro x hx
                have hx2 := keys_filter_subset _ _ _ hx
                rw [hkeys] at hx2
                rcases hcolsu with hc | hc
                · rw [hc] at hx2
                  exact Or.inl hx2
                · rw [hc] at hx2
                  rcases List.mem_append.mp hx2 with h2 | h2
                  · exact Or.inl h2
                  · rw [List.mem_singleton] at h2
                    exact Or.inr h2
              have hSfil : List.lookup "backlog_SORT"
                  (r0v.filter (fun p => p.1 ≠ "backlog")) = none := by
                apply lookup_eq_none_of_notMem
                intro hmem
                rcases hfilkeys _ hmem with hc | hc
                · exact hS0 hc
                · exact absurd hc (by decide)
              have hNfil : List.lookup "backlog_NONSORT"
                  (r0v.filter (fun p => p.1 ≠ "backlog")) = none := by
                apply lookup_eq_none_of_notMem
                intro hmem
                rcases hfilkeys _ hmem with hc | hc
                · exact hN0 hc
                · exact absurd hc (by decide)
              have hTfil : List.lookup "backlog_total"
                  (r0v.filter (fun p => p.1 ≠ "backlog")) = none := by
                apply lookup_eq_none_of_notMem
                intro hmem
                rcases hfilkeys _ hmem with hc | hc
                · exact hT0 hc
                · exact absurd hc (by decide)
              exact ⟨sn.1, sn.2, station_row_sum _ sn.1 sn.2 hSfil hNfil hTfil⟩

/-- C1 witness: the row-sum theorem applied to a document with two stations
carrying backlogs (a units list and an explicit null). -/
theorem claim_C1_witness :
    ∃ df : DF, build_stations_df (some c1wdoc) = Except.ok (some df) ∧
      ("backlog_total" ∈ df.cols ∧
       ∀ r ∈ df.rows, ∃ s n : ℚ,
         cellAt r "backlog_SORT" = Cell.val (JVal.num s) ∧
         cellAt r "backlog_NONSORT" = Cell.val (JVal.num n) ∧
         cellAt r "backlog_total" = Cell.val (JVal.num (s + n))) := by
  have heq : build_stations_df (some c1wdoc) = Except.ok (some
      ⟨["station_id", "zone_id", "backlog_units", "backlog_SORT",
        "backlog_NONSORT", "backlog_total"],
       [[("station_id", Cell.val (JVal.str "a")),
         ("zone_id", Cell.val (JVal.str "Z")),
         ("backlog_units", Cell.val (JVal.num 1)),
         ("backlog_SORT", Cell.val (JVal.num 7)),
         ("backlog_NONSORT", Cell.val (JVal.num 0)),
         ("backlog_total", Cell.val (JVal.num 7))],
        [("station_id", Cell.val (JVal.str "b")),
         ("zone_id", Cell.val (JVal.str "Z")),
         ("backlog_units", Cell.val (JVal.num 0)),
         ("backlog_SORT", Cell.val (JVal.num 0)),
         ("backlog_NONSORT", Cell.val (JVal.num 0)),
         ("backlog_total", Cell.val (JVal.num 0))]]⟩) := by
    with_unfolding_all rfl
  refine ⟨_, heq, ?_⟩
  refine claim_C1_backlog_total_sum c1wdoc _ _ rfl ?_ ?_ heq
  · refine ⟨("a", JVal.obj [("zone_id", JVal.str "Z"),
      ("backlog", JVal.obj [("units", JVal.arr [JVal.obj
        [("flow_type", JVal.str "SORT"), ("postings_num", JVal.num 7)]])])]),
      List.mem_cons_self _ _, _, rfl, ?_⟩
    decide
  · intro p hp fs hfs
    rcases List.mem_cons.mp hp with rfl | hp2
    · injection hfs with hf
      subst hf
      exact ⟨by decide, by decide, by decide⟩
    · rcases List.mem_cons.mp hp2 with rfl | hp3
      · injection hfs with hf
        subst hf
        exact ⟨by decide, by decide, by decide⟩
      · simp at hp3

end SortCenter
